import Mathlib

/-!
Verification of the event-sourced reduction engine of `todo-cli`
(`src/index.js`), shallowly embedded in Lean 4.

Modelling conventions for the JavaScript source:

* A JS object used as a dictionary (`state.todos`, `state.events`) is a
  function `String → Option _`; `none` is an absent key.
* A todo stored in the snapshot is a *plain object* built by the reducer
  (the `Todo` class is never used there), so any of its properties may be
  missing.  Each property is therefore an `Option`; `none` stands for the
  property being absent or holding JS `undefined` (the two are not
  distinguished by any operation the reducer performs).  For `estimate`
  and `deadline`, whose values may also be JS `null`, the value type is
  `Option (Option _)`: outer `none` = absent/undefined, `some none` =
  null, `some (some v)` = a real value.
* Object spread `{...base, f := v}` is a record update; spreading a
  possibly-absent object (`{...state.todos[id], ...}`) first replaces the
  absent object by the all-`none` record, matching JS where spreading
  `undefined` contributes no properties.
* Property access on `undefined` (e.g. `state.todos[id].dependentIDs`
  when the id is absent) throws a `TypeError` in JS; the reducer is thus
  embedded as `State → Action → Except String State`, with the throwing
  paths returning `Except.error "TypeError"`.
-/

namespace TodoCli

namespace Status

/-- Source: `Status.READY = 'ready'`. -/
def READY : String := "ready"

/-- Source: `Status.IN_PROGRESS = 'in-progress'`. -/
def IN_PROGRESS : String := "in-progress"

/-- Source: `Status.BLOCKED = 'blocked'`. -/
def BLOCKED : String := "blocked"

/-- Source: `Status.COMPLETE = 'complete'`. -/
def COMPLETE : String := "complete"

end Status

/-- Source: the `STATUS_DISPLAY` object literal; JS object lookup on a key
that is not present yields `undefined`, modelled as `none`. -/
def STATUS_DISPLAY (s : String) : Option String :=
  if s = Status.READY then some " "
  else if s = Status.IN_PROGRESS then some "…"
  else if s = Status.BLOCKED then some "⌛"
  else if s = Status.COMPLETE then some "✓"
  else none

/-- Source comment: `type Estimate = \x7blowEstimate :: number, highEstimate :: number\x7d`. -/
structure Estimate where
  lowEstimate : Int
  highEstimate : Int
deriving DecidableEq

/-- A todo record as stored in the snapshot: a plain JS object whose
properties may each be absent.  `_id`, `title`, `status`, `dependentIDs`
are only ever absent or a value; `estimate` and `deadline` may in
addition be `null` (inner `none`). -/
structure TodoRec where
  _id : Option String
  title : Option String
  status : Option String
  estimate : Option (Option Estimate)
  deadline : Option (Option String)
  dependentIDs : Option (List String)
deriving DecidableEq

/-- Source comment: `type Cause = \x7btype :: ("Todo"), value :: ...\x7d`. -/
structure Cause where
  type : String
  value : String
deriving DecidableEq

/-- An event record as it would be stored in `state.events`; the reducer
never constructs one (it has no `EVENT_*` cases), so only the shape
matters.  Fields mirror the `Event` class / a plain payload object. -/
structure EventRec where
  _id : Option String
  title : Option String
  start : Option (Option String)
  duration : Option Int
  causes : Option (List Cause)
deriving DecidableEq

/-- An action record, shaped as the parsed YAML documents the reducer
consumes: `\x7btype, todoId, eventId, todo?, title?, status?, estimate?,
deadline?, dependentId\x7d`.  Fields the claims never leave unset
(`todoId`, `eventId`, `dependentId`) are plain strings; truly optional
payload fields are `Option`s. -/
structure Action where
  type : String
  todoId : String
  eventId : String
  todo : Option TodoRec
  title : Option String
  status : Option String
  estimate : Option (Option Estimate)
  deadline : Option (Option String)
  dependentId : String

/-- Source: `const TODO_CREATE = 'agenda/todo/create'`. -/
def TODO_CREATE : String := "agenda/todo/create"

/-- Source: `const TODO_SET_TITLE = 'agenda/todo/set/title'`. -/
def TODO_SET_TITLE : String := "agenda/todo/set/title"

/-- Source: `const TODO_SET_STATUS = 'agenda/todo/set/status'`. -/
def TODO_SET_STATUS : String := "agenda/todo/set/status"

/-- Source: `const TODO_SET_ESTIMATE = 'agenda/todo/set/estimate'`. -/
def TODO_SET_ESTIMATE : String := "agenda/todo/set/estimate"

/-- Source: `const TODO_SET_DEADLINE = 'agenda/todo/set/deadline'`. -/
def TODO_SET_DEADLINE : String := "agenda/todo/set/deadline"

/-- Source: `const TODO_ADD_DEPENDENT = 'agenda/todo/dependent/add'`. -/
def TODO_ADD_DEPENDENT : String := "agenda/todo/dependent/add"

/-- Source: `const TODO_REMOVE_DEPENDENT = 'agenda/todo/dependent/remove'`. -/
def TODO_REMOVE_DEPENDENT : String := "agenda/todo/dependent/remove"

/-- Source: `const TODO_DESTROY = 'agenda/todo/destroy'`. -/
def TODO_DESTROY : String := "agenda/todo/destroy"

/-- Source: `const EVENT_CREATE = 'agenda/event/create'`. -/
def EVENT_CREATE : String := "agenda/event/create"

/-- Source: `const EVENT_SET_TITLE = 'agenda/event/set/title'`. -/
def EVENT_SET_TITLE : String := "agenda/event/set/title"

/-- Source: `const EVENT_SET_START = 'agenda/event/set/start'`. -/
def EVENT_SET_START : String := "agenda/event/set/start"

/-- Source: `const EVENT_SET_DURATION = 'agenda/event/set/duration'`. -/
def EVENT_SET_DURATION : String := "agenda/event/set/duration"

/-- Source: `const EVENT_ADD_CAUSE = 'agenda/event/cause/add'`. -/
def EVENT_ADD_CAUSE : String := "agenda/event/cause/add"

/-- Source: `const EVENT_REMOVE_CAUSE = 'agenda/event/cause/remove'`. -/
def EVENT_REMOVE_CAUSE : String := "agenda/event/cause/remove"

/-- Source: `const EVENT_DESTROY = 'agenda/event/destroy'`. -/
def EVENT_DESTROY : String := "agenda/event/destroy"

/-- All action-kind constants declared by the source. -/
def actionKinds : List String :=
  [TODO_CREATE, TODO_SET_TITLE, TODO_SET_STATUS, TODO_SET_ESTIMATE,
   TODO_SET_DEADLINE, TODO_ADD_DEPENDENT, TODO_REMOVE_DEPENDENT, TODO_DESTROY,
   EVENT_CREATE, EVENT_SET_TITLE, EVENT_SET_START, EVENT_SET_DURATION,
   EVENT_ADD_CAUSE, EVENT_REMOVE_CAUSE, EVENT_DESTROY]

/-- The Event action-kind constants. -/
def eventKinds : List String :=
  [EVENT_CREATE, EVENT_SET_TITLE, EVENT_SET_START, EVENT_SET_DURATION,
   EVENT_ADD_CAUSE, EVENT_REMOVE_CAUSE, EVENT_DESTROY]

/-- The state snapshot `\x7btodos, events\x7d`; JS dictionary objects as
functions from keys. -/
structure State where
  todos : String → Option TodoRec
  events : String → Option EventRec

/-- `\x7b...m, [k]: v\x7d`: insert/replace key `k`. -/
def mapSet {α : Type} (m : String → Option α) (k : String) (v : α) :
    String → Option α :=
  fun q => if q = k then some v else m q

/-- `delete m[k]` on a fresh copy of `m`. -/
def mapDel {α : Type} (m : String → Option α) (k : String) :
    String → Option α :=
  fun q => if q = k then none else m q

/-- Source: `const defaultState = \x7btodos: \x7b\x7d, events: \x7b\x7d\x7d`. -/
def defaultState : State :=
  { todos := fun _ => none, events := fun _ => none }

/-- The all-absent plain object: what spreading JS `undefined` contributes. -/
def undefTodo : TodoRec :=
  { _id := none, title := none, status := none, estimate := none,
    deadline := none, dependentIDs := none }

/-- Spread of a possibly-absent record `\x7b...state.todos[todoId]\x7d`:
absent spreads to nothing, i.e. the all-absent record. -/
def spreadOpt (o : Option TodoRec) : TodoRec :=
  o.getD undefTodo

/-- Object spread `\x7b...base, ...p\x7d`: a property of `p` that is present
overrides the one from `base`; absent properties of `p` leave `base`. -/
def mergeTodo (base p : TodoRec) : TodoRec :=
  { _id := p._id.or base._id,
    title := p.title.or base.title,
    status := p.status.or base.status,
    estimate := p.estimate.or base.estimate,
    deadline := p.deadline.or base.deadline,
    dependentIDs := p.dependentIDs.or base.dependentIDs }

/-- Source (TODO_CREATE case): `\x7bstatus: Status.READY, dependentIDs: [],
...action.todo, _id: todoId\x7d` — defaults, overridden by the payload's
present properties, with `_id` forced to `todoId` last. -/
def createdTodo (todoId : String) (payload : Option TodoRec) : TodoRec :=
  { mergeTodo
      { undefTodo with status := some Status.READY, dependentIDs := some [] }
      (spreadOpt payload)
    with _id := some todoId }

/-- Source: `function reducer(state = defaultState, action)` — the switch on
`action.type`.  The `TODO_ADD_DEPENDENT` / `TODO_REMOVE_DEPENDENT` cases
read `state.todos[todoId].dependentIDs`, which throws a `TypeError` when
the todo is absent or its `dependentIDs` property is; all other cases are
total.  The switch has no `EVENT_*` cases, so every event action reaches
`default: return state`. -/
def reducer (state : State) (action : Action) : Except String State :=
  if action.type = TODO_CREATE then
    Except.ok { state with
      todos := mapSet state.todos action.todoId (createdTodo action.todoId action.todo) }
  else if action.type = TODO_SET_TITLE then
    Except.ok { state with
      todos := mapSet state.todos action.todoId
        { spreadOpt (state.todos action.todoId) with title := action.title } }
  else if action.type = TODO_SET_STATUS then
    Except.ok { state with
      todos := mapSet state.todos action.todoId
        { spreadOpt (state.todos action.todoId) with status := action.status } }
  else if action.type = TODO_SET_ESTIMATE then
    Except.ok { state with
      todos := mapSet state.todos action.todoId
        { spreadOpt (state.todos action.todoId) with estimate := action.estimate } }
  else if action.type = TODO_SET_DEADLINE then
    Except.ok { state with
      todos := mapSet state.todos action.todoId
        { spreadOpt (state.todos action.todoId) with deadline := action.deadline } }
  else if action.type = TODO_ADD_DEPENDENT then
    match state.todos action.todoId with
    | none => Except.error "TypeError"
    | some t =>
      match t.dependentIDs with
      | none => Except.error "TypeError"
      | some l =>
        Except.ok { state with
          todos := mapSet state.todos action.todoId
            { t with dependentIDs := some (l ++ [action.dependentId]) } }
  else if action.type = TODO_REMOVE_DEPENDENT then
    match state.todos action.todoId with
    | none => Except.error "TypeError"
    | some t =>
      match t.dependentIDs with
      | none => Except.error "TypeError"
      | some l =>
        Except.ok { state with
          todos := mapSet state.todos action.todoId
            { t with
              dependentIDs := some (l.filter (fun w => w != action.dependentId)) } }
  else if action.type = TODO_DESTROY then
    Except.ok { state with todos := mapDel state.todos action.todoId }
  else
    Except.ok state

/-- Source (main): `events.forEach(event => state = reducer(state, event))`;
a thrown `TypeError` aborts the whole replay. -/
def foldActions : State → List Action → Except String State
  | s, [] => Except.ok s
  | s, a :: rest =>
    match reducer s a with
    | Except.ok s₁ => foldActions s₁ rest
    | Except.error e => Except.error e

/-- A blank action record, to be filled per kind. -/
def act0 : Action :=
  { type := "", todoId := "", eventId := "", todo := none, title := none,
    status := none, estimate := none, deadline := none, dependentId := "" }

/-- An `agenda/todo/create` action. -/
def createAct (x : String) (payload : Option TodoRec) : Action :=
  { act0 with type := TODO_CREATE, todoId := x, todo := payload }

/-- An `agenda/todo/set/title` action. -/
def setTitleAct (x t : String) : Action :=
  { act0 with type := TODO_SET_TITLE, todoId := x, title := some t }

/-- An `agenda/todo/set/status` action. -/
def setStatusAct (x st : String) : Action :=
  { act0 with type := TODO_SET_STATUS, todoId := x, status := some st }

/-- An `agenda/todo/dependent/add` action. -/
def addDepAct (x y : String) : Action :=
  { act0 with type := TODO_ADD_DEPENDENT, todoId := x, dependentId := y }

/-- An `agenda/todo/dependent/remove` action. -/
def remDepAct (x y : String) : Action :=
  { act0 with type := TODO_REMOVE_DEPENDENT, todoId := x, dependentId := y }

/-- An `agenda/todo/destroy` action. -/
def destroyAct (x : String) : Action :=
  { act0 with type := TODO_DESTROY, todoId := x }

/-- An `agenda/event/create` action. -/
def eventCreateAct (e : String) : Action :=
  { act0 with type := EVENT_CREATE, eventId := e }

/-- An instance of the `Todo` class: its constructor always assigns all six
fields (`_id` defaults to a fresh uuid, `estimate`/`deadline` to `null`),
so none of them can be absent; `estimate`/`deadline` can still be null,
hence `Option`. -/
structure Todo where
  _id : String
  title : String
  status : String
  estimate : Option Estimate
  deadline : Option String
  dependentIDs : List String
deriving DecidableEq

/-- The object returned by `Todo.prototype.toJSON`. -/
structure TodoJSON where
  _id : Option String
  title : String
  status : String
  estimate : Option Estimate
  deadline : Option String
  dependentIDs : List String
deriving DecidableEq

/-- Source: `toJSON()` returns `\x7b_id: this.id, title: this.title, status:
this.status, estimate: this.estimate, deadline: this.deadline,
dependentIDs: this.dependentIDs\x7d`.  The class defines no `id` property
(its constructor assigns `_id`), so `this.id` evaluates to JS `undefined`,
modelled as `none`. -/
def Todo.toJSON (t : Todo) : TodoJSON :=
  { _id := none, title := t.title, status := t.status,
    estimate := t.estimate, deadline := t.deadline,
    dependentIDs := t.dependentIDs }

/-- A concrete `Todo` class instance, used to evaluate `toJSON`. -/
def exTodo : Todo :=
  { _id := "t1", title := "a", status := Status.READY, estimate := none,
    deadline := none, dependentIDs := [] }

/-- The state reached from the empty snapshot by one `Todo.Create` for
`"t1"` with no payload. -/
def C4wState : State :=
  { todos := mapSet defaultState.todos "t1" (createdTodo "t1" none),
    events := defaultState.events }

/-- The state reached from the empty snapshot by one `Todo.Create` for
`"t"` whose payload already lists `"y"` as a dependent. -/
def C8state : State :=
  { todos := mapSet defaultState.todos "t"
      (createdTodo "t" (some { undefTodo with dependentIDs := some ["y"] })),
    events := defaultState.events }

/-- The state reached from the empty snapshot by one `Todo.Create` for
`"t"` whose payload lists dependents `["y", "z", "y"]`. -/
def C9state : State :=
  { todos := mapSet defaultState.todos "t"
      (createdTodo "t" (some { undefTodo with dependentIDs := some ["y", "z", "y"] })),
    events := defaultState.events }

end TodoCli

namespace TodoCli

/-- Any action whose `type` differs from all eight `TODO_*` strings reaches
the switch's `default` case: the state is returned unchanged. -/
theorem reducer_default (s : State) (a : Action)
    (h1 : a.type ≠ TODO_CREATE) (h2 : a.type ≠ TODO_SET_TITLE)
    (h3 : a.type ≠ TODO_SET_STATUS) (h4 : a.type ≠ TODO_SET_ESTIMATE)
    (h5 : a.type ≠ TODO_SET_DEADLINE) (h6 : a.type ≠ TODO_ADD_DEPENDENT)
    (h7 : a.type ≠ TODO_REMOVE_DEPENDENT) (h8 : a.type ≠ TODO_DESTROY) :
    reducer s a = Except.ok s := by
  simp [reducer, h1, h2, h3, h4, h5, h6, h7, h8]

end TodoCli

namespace TodoCli

/-- C10: for every state `S` and every action `A` whose `type` is not one of
the recognized action kinds, the reducer returns `S` itself unchanged
(identity transition); the fold is total over unknown kinds and never
fails on them. -/
theorem C10_unknown_kind_identity (s : State) (a : Action)
    (h : a.type ∉ actionKinds) : reducer s a = Except.ok s := by
  simp [actionKinds, List.mem_cons] at h
  obtain ⟨h1, h2, h3, h4, h5, h6, h7, h8, -, -, -, -, -, -, -⟩ := h
  exact reducer_default s a h1 h2 h3 h4 h5 h6 h7 h8

/-- Witness for C10 at a concrete unknown action type. -/
theorem C10_witness :
    reducer defaultState { act0 with type := "agenda/unknown/kind" } =
      Except.ok defaultState :=
  C10_unknown_kind_identity defaultState _ (by decide)

/-- C3 counterexample: applying `Event.Create` with eventId `"e1"` to the
empty state returns the state unchanged — the resulting `events` map has
no entry for `"e1"`, contradicting the claim that each `EVENT_*` kind is
handled analogously to its `TODO_*` counterpart. -/
theorem C3_counterexample :
    reducer defaultState (eventCreateAct "e1") = Except.ok defaultState ∧
    defaultState.events "e1" = none :=
  ⟨rfl, rfl⟩

/-- C3 amended: the reducer's switch has no cases for the `EVENT_*` action
kinds; every Event action falls through to the `default` case and is an
identity transition, so in particular `Event.Create` never adds an entry
to the `events` map. -/
theorem C3_event_actions_are_identity (s : State) (a : Action)
    (h : a.type ∈ eventKinds) : reducer s a = Except.ok s := by
  simp [eventKinds, List.mem_cons] at h
  rcases h with h | h | h | h | h | h | h <;>
  exact reducer_default s a (by rw [h]; decide) (by rw [h]; decide)
    (by rw [h]; decide) (by rw [h]; decide) (by rw [h]; decide)
    (by rw [h]; decide) (by rw [h]; decide) (by rw [h]; decide)

/-- Witness for the amended C3 at a concrete Event action. -/
theorem C3_witness :
    reducer defaultState (eventCreateAct "e2") = Except.ok defaultState :=
  C3_event_actions_are_identity defaultState (eventCreateAct "e2") (by decide)

end TodoCli

namespace TodoCli

/-- C1 (evaluation at the failing input): folding `Destroy` for `"t"` and
then `SetTitle` for `"t"` from the empty snapshot does NOT leave the
todos map without an entry for `"t"`: the `SetTitle` case spreads the
absent record and stores the partial record holding only the new title,
so the missing-field fault propagates into the snapshot. -/
theorem C1_failing_eval :
    (foldActions defaultState [destroyAct "t", setTitleAct "t" "x"]).toOption.bind
        (fun s => s.todos "t") = some { undefTodo with title := some "x" } := by
  decide

/-- C2 (evaluation at the failing input): `Todo.AddDependent` whose
`todoId` is absent from the todos map throws — the reducer reads
`state.todos[todoId].dependentIDs` off `undefined` — so the fold is not
total and the error branch is reachable. -/
theorem C2_failing_eval :
    reducer defaultState (addDepAct "t" "y") = Except.error "TypeError" :=
  rfl

/-- If every todo entry of `s` that stores an `_id` stores its own key,
the same holds after inserting at `x` a record whose `_id`, when present,
is `x`. -/
theorem keyInv_mapSet (s : State) (x : String) (v : TodoRec)
    (ht : ∀ k t i, s.todos k = some t → t._id = some i → i = k)
    (hv : ∀ i, v._id = some i → i = x) :
    ∀ k t i, mapSet s.todos x v k = some t → t._id = some i → i = k := by
  intro k t i hk hid
  unfold mapSet at hk
  by_cases hky : k = x
  · subst hky
    simp at hk
    subst hk
    exact hv i hid
  · simp [hky] at hk
    exact ht k t i hk hid

/-- Deleting a key preserves the key/`_id` agreement of the remaining
entries. -/
theorem keyInv_mapDel (s : State) (x : String)
    (ht : ∀ k t i, s.todos k = some t → t._id = some i → i = k) :
    ∀ k t i, mapDel s.todos x k = some t → t._id = some i → i = k := by
  intro k t i hk hid
  unfold mapDel at hk
  by_cases hky : k = x
  · simp [hky] at hk
  · simp [hky] at hk
    exact ht k t i hk hid

/-- The record spread from a possibly-absent entry of `s` at `x` stores,
when it stores an `_id` at all, the `_id` of the existing entry at `x` —
hence the key `x` itself. -/
theorem keyInv_spread_id (s : State) (x : String)
    (ht : ∀ k t i, s.todos k = some t → t._id = some i → i = k)
    (i : String) (hid : (spreadOpt (s.todos x))._id = some i) : i = x := by
  rcases hm : s.todos x with - | t₀
  · rw [hm] at hid
    simp [spreadOpt, undefTodo] at hid
  · rw [hm] at hid
    exact ht x t₀ i hm hid

/-- A single reducer step leaves the `events` map untouched: no case of
the switch writes to it. -/
theorem reducer_events_unchanged (s s' : State) (a : Action)
    (hok : reducer s a = Except.ok s') : s'.events = s.events := by
  unfold reducer at hok
  split_ifs at hok
  case _ => simp only [Except.ok.injEq] at hok; subst hok; rfl
  case _ => simp only [Except.ok.injEq] at hok; subst hok; rfl
  case _ => simp only [Except.ok.injEq] at hok; subst hok; rfl
  case _ => simp only [Except.ok.injEq] at hok; subst hok; rfl
  case _ => simp only [Except.ok.injEq] at hok; subst hok; rfl
  case _ =>
    split at hok
    · cases hok
    · split at hok
      · cases hok
      · simp only [Except.ok.injEq] at hok; subst hok; rfl
  case _ =>
    split at hok
    · cases hok
    · split at hok
      · cases hok
      · simp only [Except.ok.injEq] at hok; subst hok; rfl
  case _ => simp only [Except.ok.injEq] at hok; subst hok; rfl
  case _ => simp only [Except.ok.injEq] at hok; subst hok; rfl

/-- A single successful reducer step preserves the invariant that a todo
entry storing an `_id` stores its own key. -/
theorem reducer_preserves_keyInv (s s' : State) (a : Action)
    (hok : reducer s a = Except.ok s')
    (ht : ∀ k t i, s.todos k = some t → t._id = some i → i = k) :
    ∀ k t i, s'.todos k = some t → t._id = some i → i = k := by
  unfold reducer at hok
  split_ifs at hok
  case _ =>
    simp only [Except.ok.injEq] at hok; subst hok
    exact keyInv_mapSet s a.todoId _ ht (by intro i hid; simpa [createdTodo] using hid.symm)
  case _ =>
    simp only [Except.ok.injEq] at hok; subst hok
    exact keyInv_mapSet s a.todoId _ ht
      (by intro i hid; exact keyInv_spread_id s a.todoId ht i hid)
  case _ =>
    simp only [Except.ok.injEq] at hok; subst hok
    exact keyInv_mapSet s a.todoId _ ht
      (by intro i hid; exact keyInv_spread_id s a.todoId ht i hid)
  case _ =>
    simp only [Except.ok.injEq] at hok; subst hok
    exact keyInv_mapSet s a.todoId _ ht
      (by intro i hid; exact keyInv_spread_id s a.todoId ht i hid)
  case _ =>
    simp only [Except.ok.injEq] at hok; subst hok
    exact keyInv_mapSet s a.todoId _ ht
      (by intro i hid; exact keyInv_spread_id s a.todoId ht i hid)
  case _ =>
    split at hok
    case h_1 => cases hok
    case h_2 t₀ hm =>
      split at hok
      case h_1 => cases hok
      case h_2 l hd =>
        simp only [Except.ok.injEq] at hok; subst hok
        exact keyInv_mapSet s a.todoId _ ht (by intro i hid; exact ht a.todoId t₀ i hm hid)
  case _ =>
    split at hok
    case h_1 => cases hok
    case h_2 t₀ hm =>
      split at hok
      case h_1 => cases hok
      case h_2 l hd =>
        simp only [Except.ok.injEq] at hok; subst hok
        exact keyInv_mapSet s a.todoId _ ht (by intro i hid; exact ht a.todoId t₀ i hm hid)
  case _ =>
    simp only [Except.ok.injEq] at hok; subst hok
    exact keyInv_mapDel s a.todoId ht
  case _ =>
    simp only [Except.ok.injEq] at hok; subst hok
    exact ht

end TodoCli

namespace TodoCli

/-- Replaying a list of actions preserves the key/`_id` agreement of todo
entries and never writes the `events` map. -/
theorem foldActions_preserves_keyInv (L : List Action) (s s' : State)
    (hok : foldActions s L = Except.ok s')
    (ht : ∀ k t i, s.todos k = some t → t._id = some i → i = k) :
    (∀ k t i, s'.todos k = some t → t._id = some i → i = k) ∧
      s'.events = s.events := by
  induction L generalizing s with
  | nil =>
    simp only [foldActions, Except.ok.injEq] at hok
    subst hok
    exact ⟨ht, rfl⟩
  | cons a rest ih =>
    unfold foldActions at hok
    split at hok
    case h_1 s₁ hr =>
      obtain ⟨hi, he⟩ := ih s₁ hok (reducer_preserves_keyInv s s₁ a hr ht)
      exact ⟨hi, he.trans (reducer_events_unchanged s s₁ a hr)⟩
    case h_2 e hr =>
      cases hok

/-- C4 counterexample: the snapshot reached from the empty snapshot by the
single action `SetTitle{todoId:"t", title:"x"}` has an entry at key `"t"`
whose value stores no `_id` at all — so the key does not equal the
identifier stored in its value, refuting the claimed invariant. -/
theorem C4_counterexample :
    ((foldActions defaultState [setTitleAct "t" "x"]).toOption.bind
        (fun s => s.todos "t")).map (fun t => t._id) = some none ∧
    ((foldActions defaultState [setTitleAct "t" "x"]).toOption.bind
        (fun s => s.todos "t")).map (fun t => t._id) ≠ some (some "t") := by
  refine ⟨by decide, by decide⟩

/-- C4 amended: in every snapshot reachable from the empty snapshot, every
todos entry that stores an `_id` stores exactly its own key (entries
synthesized by `Set*` actions on a missing target store no `_id` at all),
and the same holds for the events map, which no reducer case ever
writes. -/
theorem C4_key_matches_stored_id (L : List Action) (s : State)
    (h : foldActions defaultState L = Except.ok s) :
    (∀ k t i, s.todos k = some t → t._id = some i → i = k) ∧
    (∀ k e i, s.events k = some e → e._id = some i → i = k) := by
  obtain ⟨hi, he⟩ := foldActions_preserves_keyInv L defaultState s h
    (by intro k t i hk; simp [defaultState] at hk)
  refine ⟨hi, ?_⟩
  intro k e i hk
  rw [he] at hk
  simp [defaultState] at hk

/-- Witness for the amended C4, at the one-action log creating `"t1"`. -/
theorem C4_witness :
    foldActions defaultState [createAct "t1" none] = Except.ok C4wState ∧
    "t1" = "t1" :=
  ⟨rfl, (C4_key_matches_stored_id [createAct "t1" none] C4wState rfl).1 "t1"
      (createdTodo "t1" none) "t1" rfl rfl⟩

end TodoCli

namespace TodoCli

/-- C5 counterexample: after `Create{todoId:"t1", todo:{title:"Write
spec"}}` on the empty snapshot, the stored record's `estimate` property is
absent (the reducer's create case defaults only `status` and
`dependentIDs`), not present-and-null as the claim asserts. -/
theorem C5_counterexample :
    ((foldActions defaultState
        [createAct "t1" (some { undefTodo with title := some "Write spec" })]).toOption.bind
        (fun s => s.todos "t1")).map (fun t => t.estimate) = some none ∧
    ((foldActions defaultState
        [createAct "t1" (some { undefTodo with title := some "Write spec" })]).toOption.bind
        (fun s => s.todos "t1")).map (fun t => t.estimate) ≠ some (some none) := by
  refine ⟨by decide, by decide⟩

/-- C5 amended: the scenario holds except that the created record's
`estimate` and `deadline` properties are absent rather than present and
null: `todos["t1"]` is `\x7b_id:"t1", title:"Write spec", status:"ready",
dependentIDs:[]\x7d`; after `SetStatus{status:"complete"}` the stored
status is `"complete"` and the status glyph for `"complete"` is `"✓"`. -/
theorem C5_scenario :
    ∃ s₁ s₂,
      foldActions defaultState
          [createAct "t1" (some { undefTodo with title := some "Write spec" })] =
        Except.ok s₁ ∧
      s₁.todos "t1" = some
        { _id := some "t1", title := some "Write spec",
          status := some Status.READY, estimate := none, deadline := none,
          dependentIDs := some [] } ∧
      foldActions s₁ [setStatusAct "t1" Status.COMPLETE] = Except.ok s₂ ∧
      (s₂.todos "t1").map (fun t => t.status) = some (some Status.COMPLETE) ∧
      STATUS_DISPLAY Status.COMPLETE = some "✓" := by
  refine ⟨_, _, rfl, by decide, rfl, by decide, by decide⟩

/-- C6: re-creating an existing ID overwrites deterministically — after
`Create\x7btodoId:X, todo:\x7btitle:"a"\x7d\x7d` then
`Create\x7btodoId:X, todo:\x7btitle:"b"\x7d\x7d` the stored record is
exactly `\x7b_id:X, title:"b", status:"ready", dependentIDs:[]\x7d`; and,
for an arbitrary payload, supplied fields override the create defaults
while the stored `_id` is always the action's `todoId`, whatever `_id`
the payload claims. -/
theorem C6_create_overwrites (s : State) (x : String) (p : TodoRec) :
    (∃ s₂,
      foldActions s
          [createAct x (some { undefTodo with title := some "a" }),
           createAct x (some { undefTodo with title := some "b" })] =
        Except.ok s₂ ∧
      s₂.todos x = some
        { _id := some x, title := some "b", status := some Status.READY,
          estimate := none, deadline := none, dependentIDs := some [] }) ∧
    (∃ s₁, reducer s (createAct x (some p)) = Except.ok s₁ ∧
      s₁.todos x = some (createdTodo x (some p)) ∧
      (createdTodo x (some p))._id = some x ∧
      (p.status = none → (createdTodo x (some p)).status = some Status.READY) ∧
      (∀ v, p.status = some v → (createdTodo x (some p)).status = some v) ∧
      (p.dependentIDs = none → (createdTodo x (some p)).dependentIDs = some []) ∧
      (∀ v, p.title = some v → (createdTodo x (some p)).title = some v)) := by
  constructor
  · refine ⟨_, rfl, ?_⟩
    simp [mapSet, createdTodo, mergeTodo, spreadOpt, undefTodo, createAct,
      act0, Option.or]
  · refine ⟨_, rfl, ?_, rfl, ?_, ?_, ?_, ?_⟩
    · simp [mapSet, createAct, act0]
    · intro h
      simp [createdTodo, mergeTodo, spreadOpt, h, Option.or]
    · intro v h
      simp [createdTodo, mergeTodo, spreadOpt, h, Option.or]
    · intro h
      simp [createdTodo, mergeTodo, spreadOpt, undefTodo, h, Option.or]
    · intro v h
      simp [createdTodo, mergeTodo, spreadOpt, h, Option.or]

/-- Witness for C6 at the empty snapshot with `X = "t"`. -/
theorem C6_witness :
    ∃ s₂,
      foldActions defaultState
          [createAct "t" (some { undefTodo with title := some "a" }),
           createAct "t" (some { undefTodo with title := some "b" })] =
        Except.ok s₂ ∧
      s₂.todos "t" = some
        { _id := some "t", title := some "b", status := some Status.READY,
          estimate := none, deadline := none, dependentIDs := some [] } :=
  (C6_create_overwrites defaultState "t" undefTodo).1

/-- C7 counterexample: `toJSON` of a concrete `Todo` whose `_id` is `"t1"`
carries `_id := none` — the method reads `this.id`, a property no `Todo`
instance has — so the projected identifier does not equal the stored
`_id`. -/
theorem C7_counterexample :
    (Todo.toJSON exTodo)._id ≠ some exTodo._id ∧
    (Todo.toJSON exTodo)._id = none := by
  refine ⟨by decide, by decide⟩

/-- C7 amended: `toJSON` projects a `Todo` to the record
`\x7b_id, title, status, estimate, deadline, dependentIDs\x7d` — six
fields, including `dependentIDs` — where `title`, `status`, `estimate`,
`deadline` and `dependentIDs` equal the instance's fields, but `_id` is
JS `undefined` because the method reads `this.id` instead of `this._id`;
the projection is a pure function, so it has no side effects on `t`. -/
theorem C7_toJSON_fields (t : Todo) :
    Todo.toJSON t = { _id := none, title := t.title, status := t.status,
                      estimate := t.estimate, deadline := t.deadline,
                      dependentIDs := t.dependentIDs } :=
  rfl

end TodoCli

namespace TodoCli

/-- Computation lemma: `TODO_ADD_DEPENDENT` on an existing todo with an
existing `dependentIDs` list appends the dependent id. -/
theorem reducer_addDep_ok (s : State) (x y : String) (t : TodoRec)
    (l : List String) (h1 : s.todos x = some t)
    (h2 : t.dependentIDs = some l) :
    reducer s (addDepAct x y) = Except.ok
      { s with
        todos := mapSet s.todos x { t with dependentIDs := some (l ++ [y]) } } := by
  unfold reducer
  simp +decide [addDepAct, act0, h1, h2]

/-- Computation lemma: `TODO_REMOVE_DEPENDENT` on an existing todo with an
existing `dependentIDs` list filters out every occurrence of the
dependent id. -/
theorem reducer_remDep_ok (s : State) (x y : String) (t : TodoRec)
    (l : List String) (h1 : s.todos x = some t)
    (h2 : t.dependentIDs = some l) :
    reducer s (remDepAct x y) = Except.ok
      { s with
        todos := mapSet s.todos x
            { t with dependentIDs := some (l.filter (fun w => w != y)) } } := by
  unfold reducer
  simp +decide [remDepAct, act0, h1, h2]

/-- C8 counterexample: starting from the reachable state whose todo `"t"`
already lists `"y"` once, `AddDependent\x7b"t","y"\x7d` then
`RemoveDependent\x7b"t","y"\x7d` yields `dependentIDs == []`, not the
original `["y"]` — the remove filters out the pre-existing occurrence
too, so remove is not a left inverse of add for every state in which the
target exists. -/
theorem C8_counterexample :
    (C8state.todos "t").map (fun r => r.dependentIDs) = some (some ["y"]) ∧
    ((foldActions C8state [addDepAct "t" "y", remDepAct "t" "y"]).toOption.bind
        (fun s₂ => s₂.todos "t")).map (fun r => r.dependentIDs) =
      some (some []) ∧
    ((foldActions C8state [addDepAct "t" "y", remDepAct "t" "y"]).toOption.bind
        (fun s₂ => s₂.todos "t")).map (fun r => r.dependentIDs) ≠
      some (some ["y"]) := by
  refine ⟨by decide, by decide, by decide⟩

/-- C8 amended: when `X` exists, stores a `dependentIDs` list, and `Y`
does not already occur in it, `AddDependent\x7bX,Y\x7d` then
`RemoveDependent\x7bX,Y\x7d` restores the original `dependentIDs`. -/
theorem C8_add_remove_inverse (s : State) (x y : String) (t : TodoRec)
    (l : List String) (h1 : s.todos x = some t)
    (h2 : t.dependentIDs = some l) (h3 : y ∉ l) :
    ((foldActions s [addDepAct x y, remDepAct x y]).toOption.bind
        (fun s₂ => s₂.todos x)).map (fun r => r.dependentIDs) =
      some (some l) := by
  have hf : (l ++ [y]).filter (fun w => w != y) = l := by
    rw [List.filter_append]
    have hl : l.filter (fun w => w != y) = l := by
      apply List.filter_eq_self.mpr
      intro a ha
      simp only [bne_iff_ne, ne_eq, decide_eq_true_eq]
      exact fun hh => h3 (hh ▸ ha)
    have hy : ([y] : List String).filter (fun w => w != y) = [] := by simp
    rw [hl, hy, List.append_nil]
  have e1 := reducer_addDep_ok s x y t l h1 h2
  have hs₁ : ({ s with
      todos := mapSet s.todos x { t with dependentIDs := some (l ++ [y]) } } :
        State).todos x = some { t with dependentIDs := some (l ++ [y]) } := by
    simp [mapSet]
  have e2 := reducer_remDep_ok _ x y { t with dependentIDs := some (l ++ [y]) }
    (l ++ [y]) hs₁ rfl
  simp only [foldActions, e1, e2]
  simp [Except.toOption, mapSet, hf]

/-- Witness for the amended C8: from the reachable state whose todo `"t"`
lists `["y"]`, adding then removing the fresh dependent `"z"` restores
`["y"]`. -/
theorem C8_witness :
    ((foldActions C8state [addDepAct "t" "z", remDepAct "t" "z"]).toOption.bind
        (fun s₂ => s₂.todos "t")).map (fun r => r.dependentIDs) =
      some (some ["y"]) :=
  C8_add_remove_inverse C8state "t" "z"
    (createdTodo "t" (some { undefTodo with dependentIDs := some ["y"] }))
    ["y"] (by decide) (by decide) (by decide)

/-- C9: `RemoveDependent` has filter semantics — on a todo whose
`dependentIDs` is `[Y, Z, Y]` (with `Y ≠ Z`) it leaves `[Z]`, and in
general it removes every occurrence of the given dependent id and keeps
the multiplicity of every other id. -/
theorem C9_remove_dependent_filters (s : State) (x y z : String)
    (t : TodoRec) (h1 : s.todos x = some t) :
    (y ≠ z → t.dependentIDs = some [y, z, y] →
      ((reducer s (remDepAct x y)).toOption.bind (fun s₁ => s₁.todos x)).map
          (fun r => r.dependentIDs) = some (some [z])) ∧
    (∀ l, t.dependentIDs = some l →
      ((reducer s (remDepAct x y)).toOption.bind (fun s₁ => s₁.todos x)).map
          (fun r => r.dependentIDs) =
        some (some (l.filter (fun w => w != y))) ∧
      (∀ w, w ∈ l.filter (fun w2 => w2 != y) → w ≠ y) ∧
      (∀ w, w ≠ y →
        (l.filter (fun w2 => w2 != y)).count w = l.count w)) := by
  have hgen : ∀ l, t.dependentIDs = some l →
      ((reducer s (remDepAct x y)).toOption.bind (fun s₁ => s₁.todos x)).map
          (fun r => r.dependentIDs) =
        some (some (l.filter (fun w => w != y))) := by
    intro l h2
    have e := reducer_remDep_ok s x y t l h1 h2
    simp only [e]
    simp [Except.toOption, mapSet]
  refine ⟨?_, ?_⟩
  · intro hyz h2
    rw [hgen [y, z, y] h2]
    have : [y, z, y].filter (fun w => w != y) = [z] := by
      simp [List.filter_cons, bne_self_eq_false, bne_iff_ne, Ne.symm hyz]
    rw [this]
  · intro l h2
    refine ⟨hgen l h2, ?_, ?_⟩
    · intro w hw
      simpa using List.of_mem_filter hw
    · intro w hw
      exact List.count_filter (by simp [hw])

/-- Witness for C9: from the reachable state whose todo `"t"` lists
`["y", "z", "y"]`, removing dependent `"y"` leaves `["z"]`. -/
theorem C9_witness :
    ((reducer C9state (remDepAct "t" "y")).toOption.bind
        (fun s₁ => s₁.todos "t")).map (fun r => r.dependentIDs) =
      some (some ["z"]) :=
  (C9_remove_dependent_filters C9state "t" "y" "z"
      (createdTodo "t" (some { undefTodo with dependentIDs := some ["y", "z", "y"] }))
      (by decide)).1 (by decide) (by decide)

end TodoCli
